import Mathlib

/-!
Verification development for the Azure AI Studio request client
(`Azure-Samples/ai-requests-template`).

The Python sources are shallowly embedded as executable Lean definitions:

* `Json` models the Python JSON values handled by the client
  (`response.json()` bodies, request payload fragments, decoded arguments);
* `PyError` models the exception classes the client raises or propagates;
* `requestUrl` embeds `BaseGenerator._request_url` (src/src/__base.py),
  the non-streaming transport with its retry/backoff state machine,
  driven by a finite script of transport events;
* `streamUrl` embeds `BaseGenerator._stream_url` (src/src/__base.py),
  the streaming transport, for one pass of the consumer over the
  async generator's yielded items;
* `mkAzureAIRequest` embeds the pydantic construction of `AzureAIRequest`
  (src/aistudio_requests/schemas.py) with its two field validators;
* `plainSendRequest` / `fcSendRequest` embed `PromptGenerator.send_request`
  and `FunctionCallingGenerator.send_request`
  (src/aistudio_requests/generate.py);
* `jsonLoads` / `jsonParse` model the external `json.loads` capability of
  the Python standard library on the JSON fragment the claims exercise
  (objects, arrays, strings with simple escapes, integers, booleans, null;
  floating-point literals and \u escapes are outside every claim and are
  rejected by this model).
-/

/-- A JSON value, as handled by the Python client after `response.json()`
or produced by `json.loads`. Numbers are restricted to integers: no claim
involves a floating-point JSON literal. -/
inductive Json where
  | jnull
  | jbool (b : Bool)
  | jnum (n : Int)
  | jstr (s : String)
  | jarr (elems : List Json)
  | jobj (fields : List (String × Json))

/-- The Python exceptions raised or propagated by the client code.
`httpStatusError` carries the HTTP status of `httpx.HTTPStatusError`;
`validationError` carries the pydantic field names that failed validation;
`jsonDecodeError` is `json.JSONDecodeError`. -/
inductive PyError where
  | attributeError
  | indexError
  | keyError
  | typeError
  | jsonDecodeError
  | httpStatusError (status : Nat)
  | validationError (fields : List String)
deriving DecidableEq

/-- One sleep performed by the transport, kept symbolic:
`netRetry` is `asyncio.sleep(0.5)` after an `httpx.NetworkError`,
`unavailable` is `asyncio.sleep(60)` after HTTP 503, and
`backoff w` is `asyncio.sleep(self.waiting_time ** 1.5)` performed while
`self.waiting_time` equals `w`. -/
inductive SleepEvent where
  | netRetry
  | unavailable
  | backoff (w : Nat)
deriving DecidableEq

/-- The square of a sleep's duration in seconds. The square is used so the
value stays rational: `(w ** 1.5)^2 = w^3`, `60^2 = 3600`, `0.5^2 = 1/4`.
A sleep lasts zero seconds exactly when its squared duration is zero. -/
def SleepEvent.secondsSq : SleepEvent → ℚ
  | .netRetry => 1 / 4
  | .unavailable => 3600
  | .backoff w => (w : ℚ) ^ 3

/-- One behaviour of the mocked HTTP layer for a single request attempt:
either `httpx` raises a `NetworkError`, or a response with the given
status code and parsed JSON body arrives. -/
inductive TransportEvent where
  | networkError
  | response (status : Nat) (body : Json)

/-- Observable outcome of running `BaseGenerator._request_url` against a
script of transport events: the sleeps performed in order, the number of
HTTP request attempts issued, the returned body or raised error, and the
final value of the instance counter `self.waiting_time`. -/
structure TransportOutcome where
  sleeps : List SleepEvent
  requests : Nat
  result : Except PyError Json
  waitingTime : Nat

/-- `BaseGenerator.__init__` (src/src/__base.py line 73) sets
`self.waiting_time = 1` on a freshly constructed generator. -/
def initWaitingTime : Nat := 1

/-- Embedding of `BaseGenerator._request_url` (src/src/__base.py lines
146-187), driven by a finite script: each script entry is consumed by one
request attempt. The Python recursion is unbounded; a run that would need
more attempts than the script provides is `none` (still in flight).
Classification, in source order:
success (2xx: `response.raise_for_status()` passes) resets
`waiting_time` to 0 and returns the parsed body; `httpx.NetworkError`
sleeps 0.5s and retries with `waiting_time` unchanged; HTTP 503 sleeps
60s, then increments `waiting_time` and retries; HTTP 429 sleeps
`waiting_time ** 1.5` seconds, then increments `waiting_time` and
retries; any other non-2xx status re-raises the `HTTPStatusError`. -/
def requestUrl (waitingTime : Nat) : List TransportEvent → Option TransportOutcome
  | [] => none
  | .networkError :: rest =>
      (requestUrl waitingTime rest).map fun o =>
        { o with sleeps := .netRetry :: o.sleeps, requests := o.requests + 1 }
  | .response status body :: rest =>
      if 200 ≤ status ∧ status < 300 then
        some { sleeps := [], requests := 1, result := .ok body, waitingTime := 0 }
      else if status = 503 then
        (requestUrl (waitingTime + 1) rest).map fun o =>
          { o with sleeps := .unavailable :: o.sleeps, requests := o.requests + 1 }
      else if status = 429 then
        (requestUrl (waitingTime + 1) rest).map fun o =>
          { o with sleeps := .backoff waitingTime :: o.sleeps, requests := o.requests + 1 }
      else
        some { sleeps := [], requests := 1,
               result := .error (.httpStatusError status), waitingTime := waitingTime }

/-- One item yielded by the async generator `BaseGenerator._stream_url`:
either a response text chunk (`yield chunk` inside the
`async for chunk in response.aiter_text()` loop), or — on the retry
paths — the fresh nested async generator object itself
(`yield self._stream_url(url, method, data)`), which is a generator
object, not a string. -/
inductive StreamItem where
  | chunk (text : String)
  | nestedGenerator
deriving DecidableEq

/-- One behaviour of the mocked HTTP layer for a single streaming attempt:
the connection fails with `httpx.NetworkError`, or a response arrives with
the given status; on a 2xx status the body yields `chunks`, and
`midStreamNetworkError` records whether the stream then breaks with a
`NetworkError` before closing normally. -/
inductive StreamEvent where
  | networkError
  | response (status : Nat) (chunks : List String) (midStreamNetworkError : Bool)

/-- Observable outcome of one pass of a consumer over the async generator
returned by `BaseGenerator._stream_url`: sleeps performed, items yielded
in order, the exception raised (if any), and the final `waiting_time`. -/
structure StreamOutcome where
  sleeps : List SleepEvent
  items : List StreamItem
  raised : Option PyError
  waitingTime : Nat

/-- Embedding of `BaseGenerator._stream_url` (src/src/__base.py lines
102-144) for one pass of the consumer. Source behaviour: entering the
`async with self.http_client.stream(...)` block sets `self.waiting_time = 0`
before `raise_for_status()` is called; on 2xx each text chunk is yielded;
a `NetworkError` (on connect, or mid-stream after some chunks) sleeps 0.5s
and yields the fresh retry generator object, after which the generator
ends; on 503 it sleeps 60s, on 429 it sleeps `waiting_time ** 1.5`
(with `waiting_time` already zeroed at entry), then increments
`waiting_time` and yields the fresh retry generator object; any other
non-2xx status re-raises. The yielded nested generator is never iterated
by `_stream_url` itself, so one consumer pass consumes one event. -/
def streamUrl (waitingTime : Nat) (e : StreamEvent) : StreamOutcome :=
  match e with
  | .networkError =>
      { sleeps := [.netRetry], items := [.nestedGenerator],
        raised := none, waitingTime := waitingTime }
  | .response status chunks mid =>
      if 200 ≤ status ∧ status < 300 then
        if mid then
          { sleeps := [.netRetry], items := chunks.map .chunk ++ [.nestedGenerator],
            raised := none, waitingTime := 0 }
        else
          { sleeps := [], items := chunks.map .chunk, raised := none, waitingTime := 0 }
      else if status = 503 then
        { sleeps := [.unavailable], items := [.nestedGenerator],
          raised := none, waitingTime := 1 }
      else if status = 429 then
        { sleeps := [.backoff 0], items := [.nestedGenerator],
          raised := none, waitingTime := 1 }
      else
        { sleeps := [], items := [],
          raised := some (.httpStatusError status), waitingTime := 0 }

/-- Python `dict.get(key)` restricted to JSON objects: the value bound to
the first occurrence of `key`, or `none` when the key is absent or the
receiver is not an object. -/
def Json.lookup : Json → String → Option Json
  | .jobj kvs, k => (kvs.find? fun p => p.1 == k).map Prod.snd
  | _, _ => none

/-- Python `receiver.get(key, default)`: on a dict it returns the bound
value or the default; on any non-dict JSON value the attribute lookup of
`.get` raises `AttributeError`. -/
def pyGet (j : Json) (k : String) (d : Json) : Except PyError Json :=
  match j with
  | .jobj kvs => .ok (((Json.jobj kvs).lookup k).getD d)
  | _ => .error .attributeError

/-- Python `receiver[0]`: first element of a list (`IndexError` when
empty), first character of a string (`IndexError` when empty), `KeyError`
on a dict without key `0`, `TypeError` otherwise. -/
def pyIndexZero : Json → Except PyError Json
  | .jarr [] => .error .indexError
  | .jarr (x :: _) => .ok x
  | .jstr s =>
      match s.data with
      | [] => .error .indexError
      | c :: _ => .ok (.jstr (String.mk [c]))
  | .jobj _ => .error .keyError
  | _ => .error .typeError

/-- Skip JSON whitespace. -/
def skipWs : List Char → List Char
  | c :: cs => if c = ' ' ∨ c = '\t' ∨ c = '\n' ∨ c = '\r' then skipWs cs else c :: cs
  | [] => []

/-- Decode a single-character JSON string escape (after a backslash).
The `\uXXXX`, `\b`, `\f` escapes appear in no claim and are rejected. -/
def unescapeChar (c : Char) : Option Char :=
  if c = '"' then some '"'
  else if c = '\\' then some '\\'
  else if c = '/' then some '/'
  else if c = 'n' then some '\n'
  else if c = 't' then some '\t'
  else if c = 'r' then some '\r'
  else none

/-- Parse the remainder of a JSON string literal (the opening quote is
already consumed); returns the string and the unconsumed input. -/
def parseStringAux (acc : List Char) : List Char → Option (String × List Char)
  | [] => none
  | '"' :: cs => some (String.mk acc.reverse, cs)
  | '\\' :: [] => none
  | '\\' :: e :: cs =>
      match unescapeChar e with
      | some d => parseStringAux (d :: acc) cs
      | none => none
  | c :: cs => parseStringAux (c :: acc) cs

/-- Accumulate a run of decimal digits into a natural number. -/
def parseDigitsAux (n : Nat) : List Char → Nat × List Char
  | c :: cs => if c.isDigit then parseDigitsAux (n * 10 + (c.toNat - 48)) cs else (n, c :: cs)
  | [] => (n, [])

mutual

/-- Parse one JSON value, fuel-bounded (the fuel only bounds nesting plus
member count and is chosen large enough at the top level). -/
def parseValue : Nat → List Char → Option (Json × List Char)
  | 0, _ => none
  | f + 1, input =>
    match skipWs input with
    | [] => none
    | '\x7b' :: cs =>
        (match skipWs cs with
         | '\x7d' :: rest => some (.jobj [], rest)
         | cs' => parseMembers f cs' [])
    | '[' :: cs =>
        (match skipWs cs with
         | ']' :: rest => some (.jarr [], rest)
         | cs' => parseElemsAux f cs' [])
    | '"' :: cs =>
        (match parseStringAux [] cs with
         | some (s, rest) => some (.jstr s, rest)
         | none => none)
    | 't' :: 'r' :: 'u' :: 'e' :: rest => some (.jbool true, rest)
    | 'f' :: 'a' :: 'l' :: 's' :: 'e' :: rest => some (.jbool false, rest)
    | 'n' :: 'u' :: 'l' :: 'l' :: rest => some (.jnull, rest)
    | '-' :: cs =>
        (match cs with
         | d :: _ =>
           if d.isDigit then
             let p := parseDigitsAux 0 cs
             some (.jnum (-(p.1 : Int)), p.2)
           else none
         | [] => none)
    | d :: cs =>
        if d.isDigit then
          let p := parseDigitsAux 0 (d :: cs)
          some (.jnum (p.1 : Int), p.2)
        else none

/-- Parse the members of a JSON object after at least one member is known
to follow (the opening brace is consumed and the input is not `}`). -/
def parseMembers : Nat → List Char → List (String × Json) → Option (Json × List Char)
  | 0, _, _ => none
  | f + 1, input, acc =>
    match skipWs input with
    | '"' :: cs =>
      (match parseStringAux [] cs with
       | none => none
       | some (k, rest) =>
         match skipWs rest with
         | ':' :: rest2 =>
           (match parseValue f rest2 with
            | none => none
            | some (v, rest3) =>
              match skipWs rest3 with
              | ',' :: rest4 => parseMembers f rest4 (acc ++ [(k, v)])
              | '\x7d' :: rest4 => some (.jobj (acc ++ [(k, v)]), rest4)
              | _ => none)
         | _ => none)
    | _ => none

/-- Parse the elements of a JSON array after at least one element is known
to follow (the opening bracket is consumed and the input is not `]`). -/
def parseElemsAux : Nat → List Char → List Json → Option (Json × List Char)
  | 0, _, _ => none
  | f + 1, input, acc =>
    match parseValue f input with
    | none => none
    | some (v, rest) =>
      match skipWs rest with
      | ',' :: rest2 => parseElemsAux f rest2 (acc ++ [v])
      | ']' :: rest2 => some (.jarr (acc ++ [v]), rest2)
      | _ => none

end

/-- Model of parsing a complete JSON document: one value with only
whitespace allowed around it, as `json.loads` accepts. -/
def jsonParse (s : String) : Option Json :=
  match parseValue (s.length + 1) s.data with
  | some (v, rest) => if skipWs rest = [] then some v else none
  | none => none

/-- Model of the Python standard library `json.loads` as used at
src/aistudio_requests/generate.py line 211: on a string argument it parses
the document or raises `json.JSONDecodeError`; on any non-string argument
(in particular the `{}` dict used as the `.get` default when the
`arguments` field is absent) it raises `TypeError`. -/
def jsonLoads : Json → Except PyError Json
  | .jstr s =>
      match jsonParse s with
      | some v => .ok v
      | none => .error .jsonDecodeError
  | _ => .error .typeError

/-- Embedding of `PromptGenerator.send_request` line 91
(src/aistudio_requests/generate.py):
`response.get("choices", [{}])[0].get("message", {}).get("content", "")`. -/
def extractContent (response : Json) : Except PyError Json := do
  let choices ← pyGet response "choices" (.jarr [.jobj []])
  let c0 ← pyIndexZero choices
  let msg ← pyGet c0 "message" (.jobj [])
  pyGet msg "content" (.jstr "")

/-- Embedding of `FunctionCallingGenerator.send_request` line 210
(src/aistudio_requests/generate.py):
`tool_calls = response.get("choices", [])[0].get("message", {}).get("tool_calls", [])`. -/
def toolCallsOf (response : Json) : Except PyError Json := do
  let choices ← pyGet response "choices" (.jarr [])
  let c0 ← pyIndexZero choices
  let msg ← pyGet c0 "message" (.jobj [])
  pyGet msg "tool_calls" (.jarr [])

/-- Embedding of the argument of `json.loads` at line 211
(src/aistudio_requests/generate.py):
`tool_calls[0].get("function", {}).get("arguments", {})`. -/
def argumentsField (toolCalls : Json) : Except PyError Json := do
  let t0 ← pyIndexZero toolCalls
  let fn ← pyGet t0 "function" (.jobj [])
  pyGet fn "arguments" (.jobj [])

/-- Embedding of `FunctionCallingGenerator.send_request` lines 210-213
(src/aistudio_requests/generate.py): extract
`choices[0].message.tool_calls[0].function.arguments` and decode it with
`json.loads`. -/
def extractToolArguments (response : Json) : Except PyError Json := do
  let tcs ← toolCallsOf response
  let args ← argumentsField tcs
  jsonLoads args

/-- The message role, `Literal["system", "user"]` in `AzureAIMessage`
(src/aistudio_requests/schemas.py line 40); values outside the closed set
are rejected by pydantic at construction, so the embedding makes them
unrepresentable. -/
inductive Role where
  | system
  | user
deriving DecidableEq

/-- `AzureAIMessage` (src/aistudio_requests/schemas.py): a role together
with the content blocks, kept as the JSON value the generator constructs:
`[{"type": "text", "text": ...}]`. -/
structure AzureAIMessage where
  role : Role
  content : Json

/-- `AzureAIFunction` (src/aistudio_requests/schemas.py). -/
structure AzureAIFunction where
  name : String
  description : Option String
  parameters : Json

/-- `AzureAITool` (src/aistudio_requests/schemas.py). -/
structure AzureAITool where
  type : String
  function : AzureAIFunction

/-- `AzureDataSource` (src/aistudio_requests/schemas.py). -/
structure AzureDataSource where
  type : String
  parameters : Json

/-- `response_format`, `Literal["text", "json_object"]` in `AzureAIRequest`
(src/aistudio_requests/schemas.py line 124). -/
inductive ResponseFormat where
  | text
  | jsonObject
deriving DecidableEq

/-- The caller-supplied parameter map unpacked as `**parameters` into
`AzureAIRequest(messages=..., **parameters)`. A `none` field is an absent
key. Field types mirror the pydantic annotations, so a map represented
here is exactly one that passes pydantic's type validation; the two value
validators (`validate_stop_words`, `validate_max_completion`) are applied
by `mkAzureAIRequest`. Floats are represented as rationals; no claim
performs float arithmetic. -/
structure RequestParams where
  temperature : Option ℚ := none
  top_p : Option ℚ := none
  n : Option Int := none
  user : Option String := none
  max_tokens : Option Int := none
  stream : Option Bool := none
  presence_penalty : Option ℚ := none
  frequency_penalty : Option ℚ := none
  stop : Option (List String) := none
  logit_bias : Option (List (String × ℚ)) := none
  response_format : Option ResponseFormat := none
  dataSources : Option (List AzureDataSource) := none
  seed : Option Int := none

/-- `AzureAIRequest` (src/aistudio_requests/schemas.py lines 91-127), the
validated request object. -/
structure AzureAIRequest where
  messages : List AzureAIMessage
  temperature : Option ℚ := none
  top_p : Option ℚ := none
  n : Option Int := none
  user : Option String := none
  max_tokens : Int := 4096
  stream : Bool := false
  presence_penalty : Option ℚ := none
  frequency_penalty : Option ℚ := none
  stop : Option (List String) := none
  logit_bias : Option (List (String × ℚ)) := none
  response_format : ResponseFormat := .text
  dataSources : Option (List AzureDataSource) := none
  seed : Option Int := none
  tools : Option (List AzureAITool) := none

/-- `validate_max_completion` (src/aistudio_requests/schemas.py lines
148-167): pydantic runs it on a provided `n`; the check is
`if not value in list(range(1, 128))`, and `range(1, 128)` contains
exactly the integers `1, ..., 127`. -/
def nFieldErrors : Option Int → List String
  | none => []
  | some v => if 1 ≤ v ∧ v < 128 then [] else ["n"]

/-- `validate_stop_words` (src/aistudio_requests/schemas.py lines
129-146): pydantic runs it on a provided `stop`; the check is
`if len(value) > 4`. -/
def stopFieldErrors : Option (List String) → List String
  | none => []
  | some ss => if ss.length > 4 then ["stop"] else []

/-- Construction of `AzureAIRequest(messages=..., tools=..., **parameters)`:
pydantic applies the field validators to the provided fields (in field
declaration order, `n` before `stop`) and raises one `ValidationError`
naming every violated field, or returns the validated object. -/
def mkAzureAIRequest (messages : List AzureAIMessage) (tools : Option (List AzureAITool))
    (p : RequestParams) : Except PyError AzureAIRequest :=
  match nFieldErrors p.n ++ stopFieldErrors p.stop with
  | [] => .ok
      { messages := messages
        temperature := p.temperature
        top_p := p.top_p
        n := p.n
        user := p.user
        max_tokens := p.max_tokens.getD 4096
        stream := p.stream.getD false
        presence_penalty := p.presence_penalty
        frequency_penalty := p.frequency_penalty
        stop := p.stop
        logit_bias := p.logit_bias
        response_format := p.response_format.getD .text
        dataSources := p.dataSources
        seed := p.seed
        tools := tools }
  | errs => .error (.validationError errs)

/-- `DEFAULT_SYSTEM_MESSAGE` (src/aistudio_requests/prompts.py). -/
def DEFAULT_SYSTEM_MESSAGE : String :=
  "\n    You are a intelligent assistant.\n\n    In your prompts, you will receive semantic requests to process.\n\n    Your role is to understand what the user asks and rationalize over it.\n\n    if a function is passed in the prompt, you should call it and return the result.\n\n"

/-- The system message `FunctionCallingGenerator.send_request` installs
(src/aistudio_requests/generate.py lines 167-169):
`Template(DEFAULT_SYSTEM_MESSAGE).safe_substitute(functions="PromptTemplate")`.
`DEFAULT_SYSTEM_MESSAGE` contains no `$functions` placeholder (it contains
no `$` at all), so `safe_substitute` returns it unchanged. -/
def fcSystemMessage : String := DEFAULT_SYSTEM_MESSAGE

/-- The message objects both `send_request` variants build
(src/aistudio_requests/generate.py lines 62-71 and 171-180):
`AzureAIMessage(role=..., content=[{"type": "text", "text": ...}])`. -/
def mkMessage (role : Role) (text : String) : AzureAIMessage :=
  { role := role
    content := .jarr [.jobj [("type", .jstr "text"), ("text", .jstr text)]] }

/-- Observable outcome of one `send_request` invocation: whether an
`AzureAIRequest` object was successfully constructed, how many HTTP
request attempts the transport issued, the sleeps performed, the returned
value or raised error, and the final `waiting_time` counter. -/
structure GenOutcome where
  requestBuilt : Bool
  networkCalls : Nat
  sleeps : List SleepEvent
  result : Except PyError Json
  waitingTime : Nat

/-- Embedding of `PromptGenerator.send_request` lines 90-92
(src/aistudio_requests/generate.py): with `complete_response=True` the
response object is returned unmodified, otherwise
`choices[0].message.content` is extracted with empty-string defaults. -/
def plainInterpret (completeResponse : Bool) (response : Json) : Except PyError Json :=
  if completeResponse then .ok response else extractContent response

/-- Embedding of `PromptGenerator.send_request`
(src/aistudio_requests/generate.py lines 42-92): assemble the system and
user messages, construct `AzureAIRequest(messages=messages, **parameters)`
(a `ValidationError` aborts before any transport call), run the transport,
then interpret the response body per `complete_response`. `none` means the
transport script was exhausted with the retry loop still in flight. -/
def plainSendRequest (systemMessage prompt : String) (params : RequestParams)
    (completeResponse : Bool) (waitingTime : Nat) (script : List TransportEvent) :
    Option GenOutcome :=
  let msgs := [mkMessage .system systemMessage, mkMessage .user prompt]
  match mkAzureAIRequest msgs none params with
  | .error e =>
      some { requestBuilt := false, networkCalls := 0, sleeps := [],
             result := .error e, waitingTime := waitingTime }
  | .ok _ =>
      match requestUrl waitingTime script with
      | none => none
      | some o =>
          match o.result with
          | .error e =>
              some { requestBuilt := true, networkCalls := o.requests,
                     sleeps := o.sleeps, result := .error e,
                     waitingTime := o.waitingTime }
          | .ok resp =>
              some { requestBuilt := true, networkCalls := o.requests,
                     sleeps := o.sleeps, result := plainInterpret completeResponse resp,
                     waitingTime := o.waitingTime }

/-- Embedding of `FunctionCallingGenerator.send_request`
(src/aistudio_requests/generate.py lines 140-213). The generator state
`self._functions` is `none` when tool declarations were never set (or were
deleted); the first statement of the method reads the `functions` property,
which raises `AttributeError` when `self._functions is None` — before any
message, request object, or transport call. Any other value, including a
configured empty list, passes the `is None` test; the tools are attached,
`AzureAIRequest(messages=..., tools=..., **parameters)` is constructed,
the transport runs, and the response is either returned whole
(`complete_response=True`) or decoded via `extractToolArguments`. -/
def fcSendRequest (functions : Option (List AzureAIFunction)) (prompt : String)
    (params : RequestParams) (completeResponse : Bool) (waitingTime : Nat)
    (script : List TransportEvent) : Option GenOutcome :=
  match functions with
  | none =>
      some { requestBuilt := false, networkCalls := 0, sleeps := [],
             result := .error .attributeError, waitingTime := waitingTime }
  | some fs =>
      let msgs := [mkMessage .system fcSystemMessage, mkMessage .user prompt]
      let tools := fs.map fun f => AzureAITool.mk "function" f
      match mkAzureAIRequest msgs (some tools) params with
      | .error e =>
          some { requestBuilt := false, networkCalls := 0, sleeps := [],
                 result := .error e, waitingTime := waitingTime }
      | .ok _ =>
          match requestUrl waitingTime script with
          | none => none
          | some o =>
              match o.result with
              | .error e =>
                  some { requestBuilt := true, networkCalls := o.requests,
                         sleeps := o.sleeps, result := .error e,
                         waitingTime := o.waitingTime }
              | .ok resp =>
                  some { requestBuilt := true, networkCalls := o.requests,
                         sleeps := o.sleeps,
                         result := if completeResponse then .ok resp
                                   else extractToolArguments resp,
                         waitingTime := o.waitingTime }

/-- The mocked body `{"choices":[{"message":{"content":"42"}}]}`. -/
def respContent42 : Json :=
  .jobj [("choices", .jarr [.jobj [("message", .jobj [("content", .jstr "42")])]])]

/-- The wire text of the decoded arguments: `'{"a":1,"b":2}'`. -/
def goodArgumentsText : String := "\x7b\"a\":1,\"b\":2\x7d"

/-- A successful body whose first tool call carries
`function.arguments = '{"a":1,"b":2}'`. -/
def respGoodToolCall : Json :=
  .jobj [("choices", .jarr [.jobj [("message", .jobj [("tool_calls",
    .jarr [.jobj [("function", .jobj [("arguments", .jstr goodArgumentsText)])]])])]])]

/-- A successful body whose `tool_calls` list is empty. -/
def respEmptyToolCalls : Json :=
  .jobj [("choices", .jarr [.jobj [("message", .jobj [("tool_calls", .jarr [])])]])]

/-- A successful body whose first tool call has no `arguments` field. -/
def respNoArgumentsToolCall : Json :=
  .jobj [("choices", .jarr [.jobj [("message", .jobj [("tool_calls",
    .jarr [.jobj [("function", .jobj [("name", .jstr "sum")])]])])]])]

/-- A successful body whose first tool call's `arguments` is not valid
JSON. -/
def respBadJsonToolCall : Json :=
  .jobj [("choices", .jarr [.jobj [("message", .jobj [("tool_calls",
    .jarr [.jobj [("function", .jobj [("arguments", .jstr "not json")])]])])]])]

/-- A sample configured tool declaration. -/
def sumFunction : AzureAIFunction :=
  { name := "sum", description := some "add two integers",
    parameters := .jobj [("type", .jstr "object")] }


/-- C1: the spec states that `AzureAIRequest` construction succeeds for
`n ∈ [1,128]`, in particular for `n = 128`, and the validator's own
docstring and error message agree ("between 1 and 128 inclusive",
"The maximum value ... should be 128"). The code checks membership in
`list(range(1, 128))`, which stops at 127: construction with `n = 127`
succeeds but `n = 128` is rejected with a ValidationError naming `n`,
and no network call is made. -/
theorem c1_n128_rejected :
    (∃ r, mkAzureAIRequest [] none { n := some 127 } = .ok r) ∧
    mkAzureAIRequest [] none { n := some 128 } = .error (.validationError ["n"]) ∧
    (∀ sm prompt cr w script,
       plainSendRequest sm prompt { n := some 128 } cr w script =
         some { requestBuilt := false, networkCalls := 0, sleeps := [],
                result := .error (.validationError ["n"]), waitingTime := w }) :=
  ⟨⟨_, rfl⟩, rfl, fun _ _ _ _ _ => rfl⟩

/-- C2: a freshly constructed generator (`waiting_time = 1`) whose
transport receives HTTP 429 three consecutive times and then a 2xx
response sleeps `waiting_time ** 1.5` seconds before each retry with
`waiting_time` equal to 1, 2, 3 on the successive 429 responses (the
counter incrementing by 1 after each retry), and the counter equals 0
immediately after the final success. -/
theorem c2_three_429_then_success (b1 b2 b3 body : Json) (s : Nat)
    (h2 : 200 ≤ s) (h3 : s < 300) :
    requestUrl initWaitingTime
      [.response 429 b1, .response 429 b2, .response 429 b3, .response s body] =
    some { sleeps := [.backoff 1, .backoff 2, .backoff 3], requests := 4,
           result := .ok body, waitingTime := 0 } := by
  have hs : 200 ≤ s ∧ s < 300 := ⟨h2, h3⟩
  simp [requestUrl, initWaitingTime, hs]

/-- C2 witness: the theorem applied to the concrete script
429, 429, 429, 200 with `null` bodies. -/
theorem c2_witness :
    requestUrl initWaitingTime
      [.response 429 .jnull, .response 429 .jnull, .response 429 .jnull,
       .response 200 .jnull] =
    some { sleeps := [.backoff 1, .backoff 2, .backoff 3], requests := 4,
           result := .ok .jnull, waitingTime := 0 } :=
  c2_three_429_then_success .jnull .jnull .jnull .jnull 200 (by decide) (by decide)

/-- C3: any non-2xx status other than 503 and 429 (for example 400) makes
the transport raise the `HTTPStatusError` immediately: exactly one HTTP
request is issued, no sleep is performed, and the rest of the script is
never consumed. -/
theorem c3_fatal_status (w status : Nat) (body : Json) (rest : List TransportEvent)
    (hne : ¬(200 ≤ status ∧ status < 300)) (h503 : status ≠ 503) (h429 : status ≠ 429) :
    requestUrl w (.response status body :: rest) =
      some { sleeps := [], requests := 1,
             result := .error (.httpStatusError status), waitingTime := w } := by
  simp [requestUrl, hne, h503, h429]

/-- C3 witness: the theorem applied at HTTP 400 with a nonempty remaining
script. -/
theorem c3_witness :
    requestUrl 1 [.response 400 .jnull, .response 200 .jnull] =
      some { sleeps := [], requests := 1,
             result := .error (.httpStatusError 400), waitingTime := 1 } :=
  c3_fatal_status 1 400 .jnull [.response 200 .jnull] (by decide) (by decide) (by decide)

/-- C4: HTTP 503 followed by a 2xx response makes the transport sleep 60
seconds before the single retry, return the parsed 2xx body, and leave the
backoff counter at 0 immediately after the success. -/
theorem c4_503_then_success (w : Nat) (e body : Json) (s : Nat)
    (h2 : 200 ≤ s) (h3 : s < 300) :
    requestUrl w [.response 503 e, .response s body] =
      some { sleeps := [.unavailable], requests := 2,
             result := .ok body, waitingTime := 0 } := by
  have hs : 200 ≤ s ∧ s < 300 := ⟨h2, h3⟩
  simp [requestUrl, hs]

/-- C4 witness: the theorem applied to the concrete script 503, 200. -/
theorem c4_witness :
    requestUrl 1 [.response 503 .jnull, .response 200 .jnull] =
      some { sleeps := [.unavailable], requests := 2,
             result := .ok .jnull, waitingTime := 0 } :=
  c4_503_then_success 1 .jnull .jnull 200 (by decide) (by decide)

/-- C5 counterexample: a function-calling generator whose configured tool
declarations are the empty list has no non-empty set of tool declarations
configured, yet `send_request` does not raise a configuration error: the
request object is built (`requestBuilt = true`) and one network call is
issued, returning the transport body. -/
theorem c5_counterexample :
    fcSendRequest (some []) "p" {} true 1 [.response 200 (.jobj [])] =
      some { requestBuilt := true, networkCalls := 1, sleeps := [],
             result := .ok (.jobj []), waitingTime := 0 } := rfl

/-- C5 (amended): only when the tool declarations were never configured
(or were deleted), i.e. `self._functions is None`, does invoking
`send_request` raise the immediate `AttributeError` from the `functions`
property, before any request object is built and before any network call;
a configured empty list passes the `is None` test and the request is
built and sent with an empty tools list. -/
theorem c5_unset_functions_raise (prompt : String) (params : RequestParams)
    (cr : Bool) (w : Nat) (script : List TransportEvent) :
    fcSendRequest none prompt params cr w script =
      some { requestBuilt := false, networkCalls := 0, sleeps := [],
             result := .error .attributeError, waitingTime := w } := rfl

/-- C6 counterexample: a successful response whose `tool_calls` list is
empty makes the function-calling extraction raise `IndexError` (from
`tool_calls[0]`), which is not the JSON `DecodeError` the claim names. -/
theorem c6_counterexample :
    extractToolArguments respEmptyToolCalls = .error .indexError ∧
    PyError.indexError ≠ PyError.jsonDecodeError := ⟨rfl, by decide⟩

/-- C6 (amended): with `complete_response=false` a function-calling
invocation whose transport yields a 2xx body returns
`extractToolArguments` of that body; arguments `'{"a":1,"b":2}'` decode to
the structured object `{a:1, b:2}`; an empty `tool_calls` list raises
`IndexError`, an absent `arguments` field raises `TypeError` (the `{}`
default reaches `json.loads`), and malformed JSON raises
`json.JSONDecodeError` — never a silently empty result. -/
theorem c6_decoding_behaviour :
    (∀ (f : AzureAIFunction) (fs : List AzureAIFunction) (prompt : String)
       (w : Nat) (resp : Json) (s : Nat), 200 ≤ s → s < 300 →
       fcSendRequest (some (f :: fs)) prompt {} false w [.response s resp] =
         some { requestBuilt := true, networkCalls := 1, sleeps := [],
                result := extractToolArguments resp, waitingTime := 0 }) ∧
    (∀ resp tcs, toolCallsOf resp = .ok tcs →
       argumentsField tcs = .ok (.jstr goodArgumentsText) →
       extractToolArguments resp = .ok (.jobj [("a", .jnum 1), ("b", .jnum 2)])) ∧
    (∀ resp, toolCallsOf resp = .ok (.jarr []) →
       extractToolArguments resp = .error .indexError) ∧
    (∀ resp tcs, toolCallsOf resp = .ok tcs → argumentsField tcs = .ok (.jobj []) →
       extractToolArguments resp = .error .typeError) ∧
    (∀ resp tcs s, toolCallsOf resp = .ok tcs → argumentsField tcs = .ok (.jstr s) →
       jsonParse s = none → extractToolArguments resp = .error .jsonDecodeError) := by
  refine ⟨?_, ?_, ?_, ?_, ?_⟩
  · intro f fs prompt w resp s h2 h3
    have hs : 200 ≤ s ∧ s < 300 := ⟨h2, h3⟩
    simp [fcSendRequest, mkAzureAIRequest, nFieldErrors, stopFieldErrors, requestUrl, hs]
  · intro resp tcs h1 h2
    simp only [extractToolArguments, h1, bind, Except.bind, h2, jsonLoads]
    rfl
  · intro resp h1
    simp only [extractToolArguments, h1, bind, Except.bind, argumentsField, pyIndexZero]
  · intro resp tcs h1 h2
    simp only [extractToolArguments, h1, bind, Except.bind, h2, jsonLoads]
  · intro resp tcs s h1 h2 hp
    simp only [extractToolArguments, h1, bind, Except.bind, h2, jsonLoads, hp]

/-- C6 witness: the theorem applied to the concrete mocked bodies — good
arguments decode to `{a:1, b:2}` through a full invocation, the empty
`tool_calls` body, the body without an `arguments` field, and the body
with malformed arguments. -/
theorem c6_witness :
    fcSendRequest (some [sumFunction]) "p" {} false 1 [.response 200 respGoodToolCall] =
      some { requestBuilt := true, networkCalls := 1, sleeps := [],
             result := extractToolArguments respGoodToolCall, waitingTime := 0 } ∧
    extractToolArguments respGoodToolCall = .ok (.jobj [("a", .jnum 1), ("b", .jnum 2)]) ∧
    extractToolArguments respNoArgumentsToolCall = .error .typeError ∧
    extractToolArguments respBadJsonToolCall = .error .jsonDecodeError := by
  refine ⟨?_, ?_, ?_, ?_⟩
  · exact c6_decoding_behaviour.1 sumFunction [] "p" 1 respGoodToolCall 200
      (by decide) (by decide)
  · exact c6_decoding_behaviour.2.1 respGoodToolCall _ rfl rfl
  · exact c6_decoding_behaviour.2.2.2.1 respNoArgumentsToolCall _ rfl rfl
  · exact c6_decoding_behaviour.2.2.2.2 respBadJsonToolCall _ "not json" rfl rfl rfl

/-- C7: with `complete_response=true` the plain generator returns the
response object unmodified; with `complete_response=false` it returns the
value at `choices[0].message.content` and falls back to the empty string —
not an error — when the `choices`, `message`, or `content` key is absent;
in particular `{"choices":[{"message":{"content":"42"}}]}` yields the
string `"42"`. -/
theorem c7_plain_interpretation :
    (∀ resp, plainInterpret true resp = .ok resp) ∧
    (∀ (sm prompt : String) (cr : Bool) (w : Nat) (resp : Json) (s : Nat),
       200 ≤ s → s < 300 →
       plainSendRequest sm prompt {} cr w [.response s resp] =
         some { requestBuilt := true, networkCalls := 1, sleeps := [],
                result := plainInterpret cr resp, waitingTime := 0 }) ∧
    plainInterpret false respContent42 = .ok (.jstr "42") ∧
    (∀ kvs c0 rest v, Json.lookup (.jobj kvs) "choices" = some (.jarr (.jobj c0 :: rest)) →
       ∀ m, Json.lookup (.jobj c0) "message" = some (.jobj m) →
       Json.lookup (.jobj m) "content" = some v →
       plainInterpret false (.jobj kvs) = .ok v) ∧
    (∀ kvs, Json.lookup (.jobj kvs) "choices" = none →
       plainInterpret false (.jobj kvs) = .ok (.jstr "")) ∧
    (∀ kvs c0 rest, Json.lookup (.jobj kvs) "choices" = some (.jarr (.jobj c0 :: rest)) →
       Json.lookup (.jobj c0) "message" = none →
       plainInterpret false (.jobj kvs) = .ok (.jstr "")) ∧
    (∀ kvs c0 rest m, Json.lookup (.jobj kvs) "choices" = some (.jarr (.jobj c0 :: rest)) →
       Json.lookup (.jobj c0) "message" = some (.jobj m) →
       Json.lookup (.jobj m) "content" = none →
       plainInterpret false (.jobj kvs) = .ok (.jstr "")) := by
  refine ⟨?_, ?_, ?_, ?_, ?_, ?_, ?_⟩
  · intro resp; rfl
  · intro sm prompt cr w resp s h2 h3
    have hs : 200 ≤ s ∧ s < 300 := ⟨h2, h3⟩
    simp [plainSendRequest, mkAzureAIRequest, nFieldErrors, stopFieldErrors, requestUrl, hs]
  · rfl
  · intro kvs c0 rest v h1 m h2 h3
    show extractContent (Json.jobj kvs) = Except.ok v
    simp only [extractContent, bind, Except.bind, pyGet, h1, h2, h3, Option.getD, pyIndexZero]
  · intro kvs h1
    show extractContent (Json.jobj kvs) = Except.ok (Json.jstr "")
    simp only [extractContent, bind, Except.bind, pyGet, h1, Option.getD, pyIndexZero]
    rfl
  · intro kvs c0 rest h1 h2
    show extractContent (Json.jobj kvs) = Except.ok (Json.jstr "")
    simp only [extractContent, bind, Except.bind, pyGet, h1, h2, Option.getD, pyIndexZero]
    rfl
  · intro kvs c0 rest m h1 h2 h3
    show extractContent (Json.jobj kvs) = Except.ok (Json.jstr "")
    simp only [extractContent, bind, Except.bind, pyGet, h1, h2, h3, Option.getD, pyIndexZero]

/-- C7 witness: the theorem applied to a full invocation returning the
`"42"` body, to the `"42"` body's key structure, and to an empty response
object (absent `choices` key). -/
theorem c7_witness :
    plainSendRequest "S" "U" {} false 1 [.response 200 respContent42] =
      some { requestBuilt := true, networkCalls := 1, sleeps := [],
             result := plainInterpret false respContent42, waitingTime := 0 } ∧
    plainInterpret false
      (.jobj [("choices", .jarr [.jobj [("message", .jobj [("content", .jstr "42")])]])]) =
      .ok (.jstr "42") ∧
    plainInterpret false (.jobj []) = .ok (.jstr "") := by
  refine ⟨?_, ?_, ?_⟩
  · exact c7_plain_interpretation.2.1 "S" "U" false 1 respContent42 200 (by decide) (by decide)
  · exact c7_plain_interpretation.2.2.2.1 _ _ [] _ rfl _ rfl rfl
  · exact c7_plain_interpretation.2.2.2.2.1 [] rfl

/-- C8: the claim states every element of the streaming transport's lazy
sequence is a response text chunk (a string), and `_stream_url`'s own
docstring says "Yields: str: Chunks of the response text". The code
instead yields the fresh nested async generator object itself on the
retry paths (`yield self._stream_url(url, method, data)`): after a 503,
or after a mid-stream network error, the next element of the sequence is
a generator object, not a text chunk, and the outer sequence then ends
without re-entering the retried stream's chunks. -/
theorem c8_stream_retry_yields_generator :
    streamUrl 1 (.response 503 [] false) =
      { sleeps := [.unavailable], items := [.nestedGenerator],
        raised := none, waitingTime := 1 } ∧
    streamUrl 0 (.response 200 ["a"] true) =
      { sleeps := [.netRetry], items := [.chunk "a", .nestedGenerator],
        raised := none, waitingTime := 0 } ∧
    (∀ s, StreamItem.nestedGenerator ≠ StreamItem.chunk s) :=
  ⟨rfl, rfl, fun _ h => StreamItem.noConfusion h⟩

/-- C9: at construction the backoff counter `waiting_time` equals 1, not
0; every successful non-streaming transport call leaves it at 0; and
because the 429 sleep `waiting_time ** 1.5` is computed before the
increment, the first 429 following a success sleeps `0 ** 1.5` = 0
seconds (the squared duration of `backoff 0` is 0). -/
theorem c9_backoff_counter_lifecycle :
    initWaitingTime = 1 ∧
    (∀ (w : Nat) (script : List TransportEvent) (o : TransportOutcome) (body : Json),
       requestUrl w script = some o → o.result = .ok body → o.waitingTime = 0) ∧
    (∀ (body : Json) (rest : List TransportEvent) (o : TransportOutcome),
       requestUrl 0 (.response 429 body :: rest) = some o →
       o.sleeps.head? = some (.backoff 0)) ∧
    SleepEvent.secondsSq (.backoff 0) = 0 := by
  refine ⟨rfl, ?_, ?_, ?_⟩
  · intro w script
    induction script generalizing w with
    | nil => intro o body h; simp [requestUrl] at h
    | cons e rest ih =>
      intro o body h hok
      cases e with
      | networkError =>
        rw [requestUrl, Option.map_eq_some'] at h
        obtain ⟨a, ha, rfl⟩ := h
        exact ih w a body ha hok
      | response status b =>
        rw [requestUrl] at h
        by_cases h2 : 200 ≤ status ∧ status < 300
        · rw [if_pos h2] at h
          cases h
          rfl
        · rw [if_neg h2] at h
          by_cases h503 : status = 503
          · rw [if_pos h503, Option.map_eq_some'] at h
            obtain ⟨a, ha, rfl⟩ := h
            exact ih (w + 1) a body ha hok
          · rw [if_neg h503] at h
            by_cases h429 : status = 429
            · rw [if_pos h429, Option.map_eq_some'] at h
              obtain ⟨a, ha, rfl⟩ := h
              exact ih (w + 1) a body ha hok
            · rw [if_neg h429] at h
              cases h
              simp at hok
  · intro body rest o h
    rw [requestUrl] at h
    rw [if_neg (by decide), if_neg (by decide), if_pos rfl, Option.map_eq_some'] at h
    obtain ⟨a, ha, rfl⟩ := h
    rfl
  · simp [SleepEvent.secondsSq]

/-- C9 witness: the theorem applied to the concrete run 429 then 200
starting from the post-success counter value 0: the final counter is 0
and the first sleep is `backoff 0`. -/
theorem c9_witness :
    ({ sleeps := [.backoff 0], requests := 2, result := .ok Json.jnull,
       waitingTime := 0 } : TransportOutcome).waitingTime = 0 ∧
    List.head? [SleepEvent.backoff 0] = some (.backoff 0) := by
  constructor
  · exact c9_backoff_counter_lifecycle.2.1 0
      [.response 429 .jnull, .response 200 .jnull] _ Json.jnull rfl rfl
  · exact c9_backoff_counter_lifecycle.2.2.1 Json.jnull [.response 200 .jnull]
      { sleeps := [.backoff 0], requests := 2, result := .ok Json.jnull,
        waitingTime := 0 } rfl

/-- C10: the empty-string fallback of the plain path needs the relevant
key to be absent; a `choices` key that is present but maps to an empty
list makes `choices[0]` raise `IndexError` instead; and the
function-calling path, whose `choices` default is `[]`, raises
`IndexError` (not a decode error) both when `choices` is absent and when
it is empty. -/
theorem c10_empty_choices_index_error :
    (∀ kvs, Json.lookup (.jobj kvs) "choices" = some (.jarr []) →
       extractContent (.jobj kvs) = .error .indexError) ∧
    (∀ kvs, Json.lookup (.jobj kvs) "choices" = none →
       extractToolArguments (.jobj kvs) = .error .indexError) ∧
    (∀ kvs, Json.lookup (.jobj kvs) "choices" = some (.jarr []) →
       extractToolArguments (.jobj kvs) = .error .indexError) ∧
    PyError.indexError ≠ PyError.jsonDecodeError := by
  refine ⟨?_, ?_, ?_, by decide⟩
  · intro kvs h1
    simp only [extractContent, bind, Except.bind, pyGet, h1, Option.getD, pyIndexZero]
  · intro kvs h1
    simp only [extractToolArguments, toolCallsOf, bind, Except.bind, pyGet, h1,
      Option.getD, pyIndexZero]
  · intro kvs h1
    simp only [extractToolArguments, toolCallsOf, bind, Except.bind, pyGet, h1,
      Option.getD, pyIndexZero]

/-- C10 witness: the theorem applied to `{"choices":[]}` on both paths and
to `{}` (absent `choices`) on the function-calling path. -/
theorem c10_witness :
    extractContent (.jobj [("choices", .jarr [])]) = .error .indexError ∧
    extractToolArguments (.jobj []) = .error .indexError ∧
    extractToolArguments (.jobj [("choices", .jarr [])]) = .error .indexError := by
  refine ⟨?_, ?_, ?_⟩
  · exact c10_empty_choices_index_error.1 [("choices", .jarr [])] rfl
  · exact c10_empty_choices_index_error.2.1 [] rfl
  · exact c10_empty_choices_index_error.2.2.1 [("choices", .jarr [])] rfl
